import Mathlib

/-!
Verification development for the pysparkplug protocol layer.

The Python source is shallowly embedded: stateful session methods become
pure functions that return the updated state together with a trace of the
calls handed to the transport client; exceptions become `Except` error
values (also tracked separately where the source mutates state before
raising); the protobuf wire format is modelled as a structured record,
since serialization/deserialization of the structured message is inverse
by construction and every behaviour of interest lives above it.

Sources embedded:
  - `_payload.py`: `Birth` (with `__post_init__` validation and the derived
    alias/name and name/datatype mappings), `_BasePayload._decode_protobuf`
    and `_encode_protobuf`, `NData`, `NCmd`, `NDeath`;
  - `_json_payload.py`: the alias/datatype resolution step of
    `payload_from_json`;
  - `_data_ops_node.py`: `DataOpsNode.publish`, `DataOpsNode.disconnect`,
    `_publish_nbirth`, `_publish_ndeath`;
  - `_host_application.py`: `get_topic_hierarchy_from_spb_parris_encoding`.

The `Metric`/`DataType` value model and the `Topic` class are external
collaborators whose code is not part of the embedded sources; they are
modelled from the spec where noted.
-/

deriving instance DecidableEq for Except

namespace Pysparkplug

/-- Modelled from the spec: the `DataType` enumeration consumed by the
payload layer (external collaborator), with its `UNKNOWN` sentinel meaning
"resolve from birth". Only the datatype kinds this development needs. -/
inductive DataType where
  | unknown
  | int8
  | int16
  | int32
  | int64
  | uint8
  | uint16
  | uint32
  | uint64
  | float32
  | float64
  | boolean
  | str
  | bytes
deriving DecidableEq

/-- Modelled from the spec: metric values (scalar kinds suffice here; the
value is carried through encode/decode unchanged by the embedded code). -/
inductive MValue where
  | null
  | intVal (i : Int)
  | strVal (s : String)
  | boolVal (b : Bool)
deriving DecidableEq

/-- Modelled from the spec: the in-memory `Metric` object (external
collaborator "Metric"): optional name, optional integer alias, optional
timestamp, a datatype with `UNKNOWN` sentinel, and a value. -/
structure Metric where
  name : Option String := none
  «alias» : Option Nat := none
  timestamp : Option Nat := none
  datatype : DataType := DataType.unknown
  value : MValue := MValue.null
deriving DecidableEq

/-- Wire-level (protobuf) metric record. Proto fields read back with their
default when absent, matching how `_payload.py` accesses them
(`metric.name` is `""` and `metric.alias` is `0` when unset). -/
structure PBMetric where
  name : String := ""
  «alias» : Nat := 0
  timestamp : Nat := 0
  datatype : DataType := DataType.unknown
  value : MValue := MValue.null
deriving DecidableEq

/-- Modelled from the spec: `Metric.from_pb`, reading a wire metric back
into a `Metric` object (absent optional fields read back as `None`). -/
def Metric.from_pb (m : PBMetric) : Metric :=
  { name := if m.name = "" then none else some m.name
    «alias» := if m.«alias» = 0 then none else some m.«alias»
    timestamp := if m.timestamp = 0 then none else some m.timestamp
    datatype := m.datatype
    value := m.value }

/-- Modelled from the spec: `Metric.to_pb`, serializing a `Metric` object
to a wire metric; the datatype is omitted (left `UNKNOWN`) when
`include_dtype` is false. -/
def Metric.to_pb (m : Metric) (include_dtype : Bool) : PBMetric :=
  { name := m.name.getD ""
    «alias» := m.«alias».getD 0
    timestamp := m.timestamp.getD 0
    datatype := if include_dtype then m.datatype else DataType.unknown
    value := m.value }

/-- Wire-level (protobuf) payload record: optional timestamp, optional
sequence number, repeated metrics. `none` models an absent field
(`HasField` false); reads through an accessor use the proto default. -/
structure PBPayload where
  timestamp : Option Nat := none
  seq : Option Nat := none
  metrics : List PBMetric := []
deriving DecidableEq

/-- Error taxonomy of the embedded code. `validationError` stands for the
`ValueError` raised by `Birth.__post_init__` and by
`get_topic_hierarchy_from_spb_parris_encoding`; `resolutionError` for the
`KeyError` escaping `Birth.get_name`/`Birth.get_dtype` during decode;
`decodeError` for malformed wire input (e.g. `payload.metrics[0]` on an
empty list); `typeError` for `TypeError`/`AttributeError` raised when a
`None` reaches code expecting a value. -/
inductive SpbError where
  | validationError
  | resolutionError
  | decodeError
  | typeError
deriving DecidableEq

/-- Lookup in an insertion-ordered association list (a Python `dict`). -/
def lookupEntry {α β : Type} [DecidableEq α] : List (α × β) → α → Option β
  | [], _ => none
  | (k, v) :: rest, key => if k = key then some v else lookupEntry rest key

/-- Keyed update of an insertion-ordered association list: replaces the
value in place when the key exists, appends otherwise (Python
`d[key] = val`). -/
def upsertEntry {α β : Type} [DecidableEq α] : List (α × β) → α → β → List (α × β)
  | [], key, val => [(key, val)]
  | (k, v) :: rest, key, val =>
      if k = key then (k, val) :: rest else (k, v) :: upsertEntry rest key val

/-- The `Birth` payload (`_payload.py`): timestamp, sequence number,
metrics, plus the alias/name and name/datatype mappings that
`__post_init__` derives. -/
structure Birth where
  timestamp : Nat
  seq : Nat
  metrics : List Metric
  names_mapping : List (Nat × String) := []
  dtypes_mapping : List (String × DataType) := []
deriving DecidableEq

/-- The validation/registration loop of `Birth.__post_init__`: each metric
must have a defined (non-`None`) name and a non-`UNKNOWN` datatype; a
metric with an alias is registered in the alias/name mapping, and every
metric in the name/datatype mapping. -/
def Birth.registerMetrics :
    List Metric → List (Nat × String) → List (String × DataType) →
      Except SpbError (List (Nat × String) × List (String × DataType))
  | [], nm, dm => Except.ok (nm, dm)
  | m :: rest, nm, dm =>
    match m.name with
    | none => Except.error SpbError.validationError
    | some name =>
      if m.datatype = DataType.unknown then Except.error SpbError.validationError
      else
        let nm1 := match m.«alias» with
          | some a => upsertEntry nm a name
          | none => nm
        Birth.registerMetrics rest nm1 (upsertEntry dm name m.datatype)

/-- Constructing a `Birth` runs `__post_init__`: validation plus derivation
of the two mappings. -/
def Birth.construct (timestamp seq : Nat) (metrics : List Metric) :
    Except SpbError Birth :=
  match Birth.registerMetrics metrics [] [] with
  | Except.error e => Except.error e
  | Except.ok (nm, dm) => Except.ok ⟨timestamp, seq, metrics, nm, dm⟩

/-- `Birth.get_name`: alias lookup; a missing alias raises (`KeyError`),
modelled as `none` here and turned into `resolutionError` at the use
site. -/
def Birth.get_name (b : Birth) (a : Nat) : Option String :=
  lookupEntry b.names_mapping a

/-- `Birth.get_dtype`: name lookup; a missing name raises (`KeyError`),
modelled as `none` here and turned into `resolutionError` at the use
site. -/
def Birth.get_dtype (b : Birth) (name : String) : Option DataType :=
  lookupEntry b.dtypes_mapping name

/-- Name-resolution half of the per-metric loop inside
`_BasePayload._decode_protobuf`: `if not metric.name: metric.name =
birth.get_name(metric.alias)`. -/
def resolveName (b : Birth) (m : PBMetric) : Except SpbError PBMetric :=
  if m.name = "" then
    match b.get_name m.«alias» with
    | none => Except.error SpbError.resolutionError
    | some nm => Except.ok { m with name := nm }
  else Except.ok m

/-- Datatype-resolution half of the per-metric loop inside
`_BasePayload._decode_protobuf`: `if metric.datatype == DataType.UNKNOWN:
metric.datatype = birth.get_dtype(metric.name)` (keyed by the
possibly-just-resolved name). -/
def resolveDtype (b : Birth) (m : PBMetric) : Except SpbError PBMetric :=
  if m.datatype = DataType.unknown then
    match b.get_dtype m.name with
    | none => Except.error SpbError.resolutionError
    | some dt => Except.ok { m with datatype := dt }
  else Except.ok m

/-- One iteration of the resolution loop of
`_BasePayload._decode_protobuf`. -/
def resolveMetric (b : Birth) (m : PBMetric) : Except SpbError PBMetric :=
  match resolveName b m with
  | Except.error e => Except.error e
  | Except.ok m1 => resolveDtype b m1

/-- The whole resolution loop: applied to every wire metric when a birth
is supplied, the identity otherwise. -/
def resolveMetrics : Option Birth → List PBMetric → Except SpbError (List PBMetric)
  | none, ms => Except.ok ms
  | some _, [] => Except.ok []
  | some b, m :: rest =>
    match resolveMetric b m with
    | Except.error e => Except.error e
    | Except.ok m1 =>
      match resolveMetrics (some b) rest with
      | Except.error e => Except.error e
      | Except.ok ms => Except.ok (m1 :: ms)

/-- Core of `_BasePayload._decode_protobuf`: resolve the metrics against
the optional birth, then read timestamp (proto default 0 when absent),
optional seq, and the converted metrics. -/
def decodeProtobufCore (raw : PBPayload) (birth : Option Birth) :
    Except SpbError (Nat × Option Nat × List Metric) :=
  match resolveMetrics birth raw.metrics with
  | Except.error e => Except.error e
  | Except.ok ms => Except.ok (raw.timestamp.getD 0, raw.seq, ms.map Metric.from_pb)

/-- The `NData` payload (`_Data` dataclass in `_payload.py`). -/
structure NData where
  timestamp : Nat
  seq : Nat
  metrics : List Metric
deriving DecidableEq

/-- `NData.decode` on the protobuf path: `_BasePayload._decode_protobuf`
followed by `cls(**kwargs)`; a missing `seq` field makes the dataclass
constructor raise (`TypeError`), since `_Data` has no default for it. -/
def NData.decodePB (raw : PBPayload) (birth : Option Birth) : Except SpbError NData :=
  match decodeProtobufCore raw birth with
  | Except.error e => Except.error e
  | Except.ok (ts, some s, ms) => Except.ok ⟨ts, s, ms⟩
  | Except.ok (_, none, _) => Except.error SpbError.typeError

/-- `NData.encode` on the protobuf path (`_BasePayload._encode_protobuf`):
timestamp and seq always set, metrics serialized with the requested
`include_dtypes`. -/
def NData.encodePB (p : NData) (include_dtypes : Bool) : PBPayload :=
  { timestamp := some p.timestamp
    seq := some p.seq
    metrics := p.metrics.map (fun m => m.to_pb include_dtypes) }

/-- The `NCmd` payload (`_Cmd` dataclass in `_payload.py`): no sequence
number. -/
structure NCmd where
  timestamp : Nat
  metrics : List Metric
deriving DecidableEq

/-- `NCmd.decode` on the protobuf path: a present `seq` field makes
`cls(**kwargs)` raise (`TypeError`), since `_Cmd` takes no `seq`. -/
def NCmd.decodePB (raw : PBPayload) (birth : Option Birth) : Except SpbError NCmd :=
  match decodeProtobufCore raw birth with
  | Except.error e => Except.error e
  | Except.ok (ts, none, ms) => Except.ok ⟨ts, ms⟩
  | Except.ok (_, some _, _) => Except.error SpbError.typeError

/-- `Birth.decode`: discards any supplied birth (birth payloads are
self-contained), then `cls(**kwargs)` runs `__post_init__` validation. -/
def Birth.decodePB (raw : PBPayload) (_birth : Option Birth) : Except SpbError Birth :=
  match decodeProtobufCore raw none with
  | Except.error e => Except.error e
  | Except.ok (ts, some s, ms) => Birth.construct ts s ms
  | Except.ok (_, none, _) => Except.error SpbError.typeError

/-- `Birth.encode`: forces `include_dtypes` to true regardless of the
caller's argument. -/
def Birth.encodePB (b : Birth) (_include_dtypes : Bool) : PBPayload :=
  { timestamp := some b.timestamp
    seq := some b.seq
    metrics := b.metrics.map (fun m => m.to_pb true) }

/-- The `NDeath` payload: optional timestamp and the birth/death sequence
metric. The Python type annotation says `Metric`, but
`DataOpsNode._publish_ndeath` passes `None`, so the field is an
`Option`. -/
structure NDeath where
  timestamp : Option Nat
  bd_seq_metric : Option Metric
deriving DecidableEq

/-- `NDeath.decode`, translated verbatim from `_payload.py`:
`timestamp=payload.timestamp if not payload.HasField("timestamp") else
None` — i.e. an absent field reads back as the proto default `0`, a
present field as `None` — and `metrics[0]` raises on an empty list. -/
def NDeath.decodePB (raw : PBPayload) (_birth : Option Birth) : Except SpbError NDeath :=
  match raw.metrics with
  | [] => Except.error SpbError.decodeError
  | m :: _ =>
    Except.ok
      { timestamp := match raw.timestamp with
          | none => some 0
          | some _ => none
        bd_seq_metric := some (Metric.from_pb m) }

/-- `NDeath.encode`: sets the timestamp only when not `None`, then appends
`self.bd_seq_metric.to_pb(...)` — which raises (`AttributeError`) when the
field holds `None`. -/
def NDeath.encodePB (d : NDeath) (_include_dtypes : Bool) : Except SpbError PBPayload :=
  match d.bd_seq_metric with
  | none => Except.error SpbError.typeError
  | some m =>
    Except.ok
      { timestamp := d.timestamp
        seq := none
        metrics := [m.to_pb true] }

/-- Truthiness of an optional string in Python: `not metric.name` holds
for `None` and for the empty string. -/
def nameFalsy : Option String → Bool
  | none => true
  | some s => s = ""

/-- The alias/datatype resolution step of `payload_from_json`
(`_json_payload.py` lines 164-169), operating on already-parsed `Metric`
objects: `if not metric.name and metric.alias is not None: metric.name =
birth.get_name(metric.alias)` then `if metric.datatype ==
DataType.UNKNOWN: metric.datatype = birth.get_dtype(metric.name)` (a
`None` name reaching the dict lookup raises `KeyError`). -/
def resolveJsonMetric (b : Birth) (m : Metric) : Except SpbError Metric :=
  let step1 : Except SpbError Metric :=
    match m.«alias» with
    | some a =>
      if nameFalsy m.name then
        match b.get_name a with
        | none => Except.error SpbError.resolutionError
        | some nm => Except.ok { m with name := some nm }
      else Except.ok m
    | none => Except.ok m
  match step1 with
  | Except.error e => Except.error e
  | Except.ok m1 =>
    if m1.datatype = DataType.unknown then
      match m1.name with
      | some nm =>
        match b.get_dtype nm with
        | none => Except.error SpbError.resolutionError
        | some dt => Except.ok { m1 with datatype := dt }
      | none => Except.error SpbError.resolutionError
    else Except.ok m1

/-- MQTT quality-of-service levels (external collaborator enum). -/
inductive QoS where
  | atMostOnce
  | atLeastOnce
  | exactlyOnce
deriving DecidableEq

/-- Sparkplug message-type tags (external collaborator enum). -/
inductive MessageType where
  | nbirth
  | ndeath
  | ndata
  | ncmd
  | dbirth
  | ddeath
  | ddata
  | dcmd
  | state
deriving DecidableEq

/-- Modelled from the spec: the `Topic` class (external collaborator),
with the field accessors the embedded code reads: namespace, group id,
edge-node id, device id and sparkplug host id, each possibly absent. -/
structure Topic where
  message_type : MessageType
  «namespace» : String := "spBv1.0"
  group_id : Option String := none
  edge_node_id : Option String := none
  device_id : Option String := none
  sparkplug_host_id : Option String := none
deriving DecidableEq

/-- The payload variants a `DataOpsNode` puts inside messages. -/
inductive PayloadVal where
  | nbirthP (b : Birth)
  | ndataP (p : NData)
  | ndeathP (p : NDeath)
deriving DecidableEq

/-- The `Message` envelope (`_message.py`): topic, payload,
quality-of-service and retain flag. -/
structure Message where
  topic : Topic
  payload : PayloadVal
  qos : QoS
  retain : Bool
deriving DecidableEq

/-- One call handed to the transport client: `client.publish(message,
include_dtypes)` or `client.disconnect()`. -/
inductive Event where
  | pub (msg : Message) (include_dtypes : Bool)
  | clientDisconnect
deriving DecidableEq

/-- State of a `DataOpsNode` (`_data_ops_node.py`): the connected flag and
`_published_metrics`, a dict from `(group_id, edge_node_id)` to a dict
from metric name to last-known metric. Both ids, and the metric names
used as keys, can be `None` in Python, hence the `Option` keys. -/
structure DataOpsNode where
  node_id : String
  connected : Bool := false
  published_metrics :
    List ((Option String × Option String) × List (Option String × Metric)) := []
  retain_birth_certificates : Bool := false
deriving DecidableEq

/-- Topic built by `DataOpsNode._publish_nbirth`. -/
def nbirthTopic (g e : Option String) : Topic :=
  { message_type := MessageType.nbirth, group_id := g, edge_node_id := e }

/-- Topic built by `DataOpsNode._publish_ndeath`. -/
def ndeathTopic (g e : Option String) : Topic :=
  { message_type := MessageType.ndeath, group_id := g, edge_node_id := e }

/-- `DataOpsNode._publish_nbirth`: builds an `NBirth` payload (running the
birth validation) and a message with quality-of-service `AT_MOST_ONCE`
and retain equal to `_retain_birth_certificates`; the validation error
propagates when a metric is invalid. -/
def mkNBirthMessage (node : DataOpsNode) (g e : Option String)
    (metrics : List Metric) (now : Nat) : Except SpbError Message :=
  match Birth.construct now 0 metrics with
  | Except.error err => Except.error err
  | Except.ok b =>
    Except.ok
      { topic := nbirthTopic g e
        payload := PayloadVal.nbirthP b
        qos := QoS.atMostOnce
        retain := node.retain_birth_certificates }

/-- `DataOpsNode._publish_ndeath`: an `NDeath` payload whose
`bd_seq_metric` is `None`, in a message with quality-of-service
`AT_MOST_ONCE` and retain `False`. -/
def ndeathMessage (g e : Option String) (now : Nat) : Message :=
  { topic := ndeathTopic g e
    payload := PayloadVal.ndeathP { timestamp := some now, bd_seq_metric := none }
    qos := QoS.atMostOnce
    retain := false }

/-- Result of a `DataOpsNode.publish` call: the state after the call, the
calls handed to the transport client, and the exception propagated to the
caller, if any (the source mutates `_published_metrics` before the birth
constructor can raise, so the state survives the error). -/
structure PubResult where
  node : DataOpsNode
  events : List Event
  err : Option SpbError
deriving DecidableEq

/-- The name-keyed snapshot dict built/updated by `DataOpsNode.publish`:
`{metric.name: metric for metric in metrics}` over a base dict (empty for
a first publish), later writes to a name overwriting earlier ones. -/
def snapshotOf (metrics : List Metric) (base : List (Option String × Metric)) :
    List (Option String × Metric) :=
  metrics.foldl (fun acc m => upsertEntry acc m.name m) base

/-- The last metric in the list carrying the given name, if any — the
"last write wins" characterization of `snapshotOf`. -/
def lastMetricNamed : List Metric → Option String → Option Metric
  | [], _ => none
  | m :: rest, nm =>
    match lastMetricNamed rest nm with
    | some m1 => some m1
    | none => if m.name = nm then some m else none

/-- `DataOpsNode.publish`: on a first publish for the topic's
`(group_id, edge_node_id)` key, store the metrics as that key's snapshot
and publish an `NBirth` (via `_publish_nbirth`); on a later publish,
update the snapshot per metric name and publish an `NData` message that
carries exactly the metrics of this call, with the caller's
quality-of-service and retain flag. -/
def DataOpsNode.publish (node : DataOpsNode) (topic : Topic)
    (metrics : List Metric) (qos : QoS) (retain : Bool) (now : Nat) : PubResult :=
  let key := (topic.group_id, topic.edge_node_id)
  match lookupEntry node.published_metrics key with
  | none =>
    let node1 :=
      { node with published_metrics :=
          upsertEntry node.published_metrics key (snapshotOf metrics []) }
    match mkNBirthMessage node topic.group_id topic.edge_node_id metrics now with
    | Except.error e => { node := node1, events := [], err := some e }
    | Except.ok msg => { node := node1, events := [Event.pub msg true], err := none }
  | some snap =>
    let node1 :=
      { node with published_metrics :=
          upsertEntry node.published_metrics key (snapshotOf metrics snap) }
    let msg : Message :=
      { topic := topic
        payload := PayloadVal.ndataP ⟨now, 0, metrics⟩
        qos := qos
        retain := retain }
    { node := node1, events := [Event.pub msg true], err := none }

/-- `DataOpsNode.disconnect`: when connected, publish an `NDeath` for
every key of `_published_metrics`; then call the client's disconnect and
clear the connected flag (the snapshots themselves survive). -/
def DataOpsNode.disconnect (node : DataOpsNode) (now : Nat) :
    DataOpsNode × List Event :=
  let deaths :=
    if node.connected then
      node.published_metrics.map (fun kv => Event.pub (ndeathMessage kv.1.1 kv.1.2 now) false)
    else []
  ({ node with connected := false }, deaths ++ [Event.clientDisconnect])

/-- Auxiliary recursion for `pySplit`. -/
def pySplitAux (sep : Char) : List Char → List Char → List String
  | [], acc => [String.mk acc.reverse]
  | c :: rest, acc =>
    if c = sep then String.mk acc.reverse :: pySplitAux sep rest []
    else pySplitAux sep rest (c :: acc)

/-- Python `s.split(sep)` for a one-character separator: splits at every
occurrence, keeping empty segments (`"".split(":") == [""]`,
`"a:".split(":") == ["a", ""]`). -/
def pySplit (s : String) (sep : Char) : List String :=
  pySplitAux sep s.toList []

/-- `get_topic_hierarchy_from_spb_parris_encoding` (`_host_application.py`):
reject a namespace other than `"spBv1.0"`; split the group id on `":"`
(an absent group id crashes on the attribute access); reject a topic
carrying both an edge-node id and a host id; append the edge-node id
(and device id when present) or else the host id; finally extend with the
metric name split on `":"` (an absent name crashes on the attribute
access). -/
def get_topic_hierarchy_from_spb_parris_encoding (message : Message)
    (metric : Metric) : Except SpbError (List String) :=
  if message.topic.«namespace» ≠ "spBv1.0" then Except.error SpbError.validationError
  else
    match message.topic.group_id with
    | none => Except.error SpbError.typeError
    | some g =>
      let topic_hierarchy := pySplit g ':'
      if message.topic.edge_node_id.isSome && message.topic.sparkplug_host_id.isSome then
        Except.error SpbError.validationError
      else
        let mid : List String :=
          match message.topic.edge_node_id with
          | some e =>
            match message.topic.device_id with
            | some d => [e, d]
            | none => [e]
          | none =>
            match message.topic.sparkplug_host_id with
            | some h => [h]
            | none => []
        match metric.name with
        | none => Except.error SpbError.typeError
        | some nm => Except.ok (topic_hierarchy ++ mid ++ pySplit nm ':')

/-! ### Concrete example values used by witnesses and counterexamples -/

/-- Birth metric of the worked example: `{name: "a", alias: 1, datatype: INT32}`. -/
def metricA : Metric :=
  { name := some "a", «alias» := some 1, datatype := DataType.int32, value := MValue.intVal 1 }

/-- The birth of the worked example, built through the validating
constructor. -/
def birth0 : Birth :=
  match Birth.construct 0 0 [metricA] with
  | Except.ok b => b
  | Except.error _ => ⟨0, 0, [], [], []⟩

/-- Wire data payload of the worked example: one metric `{alias: 1,
value: 5}` with no name and no datatype. -/
def dataPB0 : PBPayload :=
  { timestamp := some 10, seq := some 0,
    metrics := [{ name := "", «alias» := 1, datatype := DataType.unknown,
                  value := MValue.intVal 5 }] }

/-- Wire data payload referencing alias 99, absent from `birth0`. -/
def dataPB99 : PBPayload :=
  { timestamp := some 10, seq := some 0,
    metrics := [{ name := "", «alias» := 99, datatype := DataType.unknown,
                  value := MValue.intVal 5 }] }

/-- A birth/death sequence metric for the node-death examples. -/
def bdSeqMetric : Metric :=
  { name := some "bdSeq", datatype := DataType.int64, value := MValue.intVal 0 }

/-- A fresh, connected node session with no published identities. -/
def node0 : DataOpsNode := { node_id := "n", connected := true }

/-- The topic used by the session examples. -/
def topic0 : Topic :=
  { message_type := MessageType.ndata, group_id := some "g", edge_node_id := some "e" }

/-- A metric with no name: `DataOpsNode.publish` accepts it into the
snapshot, but the `NBirth` constructor then raises. -/
def mBad : Metric := { name := none, datatype := DataType.int32, value := MValue.intVal 1 }

/-- First example metric published to the session. -/
def mM1 : Metric := { name := some "m1", datatype := DataType.int32, value := MValue.intVal 1 }

/-- Second example metric published to the session. -/
def mM2 : Metric := { name := some "m2", datatype := DataType.int32, value := MValue.intVal 2 }

/-- Session state after a first successful publish of `mM1`. -/
def nodeAfterFirst : DataOpsNode :=
  (node0.publish topic0 [mM1] QoS.atMostOnce false 5).node

/-- A connected session knowing two identities. -/
def nodeTwo : DataOpsNode :=
  { node_id := "n", connected := true,
    published_metrics :=
      [((some "g1", some "e1"), [(some "m1", mM1)]),
       ((some "g2", some "e2"), [(some "m2", mM2)])] }

/-! ### Helper lemmas -/

theorem lookupEntry_upsertEntry_self {α β : Type} [DecidableEq α]
    (l : List (α × β)) (k : α) (v : β) :
    lookupEntry (upsertEntry l k v) k = some v := by
  induction l with
  | nil => simp [upsertEntry, lookupEntry]
  | cons hd tl ih =>
    obtain ⟨k0, v0⟩ := hd
    by_cases h : k0 = k
    · simp [upsertEntry, lookupEntry, h]
    · simp [upsertEntry, lookupEntry, h, ih]

theorem lookupEntry_upsertEntry_ne {α β : Type} [DecidableEq α]
    (l : List (α × β)) (k k1 : α) (v : β) (h : k ≠ k1) :
    lookupEntry (upsertEntry l k v) k1 = lookupEntry l k1 := by
  induction l with
  | nil => simp [upsertEntry, lookupEntry, h]
  | cons hd tl ih =>
    obtain ⟨k0, v0⟩ := hd
    by_cases h0 : k0 = k
    · subst h0
      simp [upsertEntry, lookupEntry, h]
    · simp [upsertEntry, lookupEntry, h0, ih]

theorem lookupEntry_snapshotOf (l : List Metric)
    (base : List (Option String × Metric)) (k : Option String) :
    lookupEntry (snapshotOf l base) k =
      (match lastMetricNamed l k with
       | some m => some m
       | none => lookupEntry base k) := by
  induction l generalizing base with
  | nil => simp [snapshotOf, lastMetricNamed]
  | cons m rest ih =>
    show lookupEntry (snapshotOf rest (upsertEntry base m.name m)) k = _
    rw [ih]
    cases hlast : lastMetricNamed rest k with
    | some m1 => simp [lastMetricNamed, hlast]
    | none =>
      by_cases hname : m.name = k
      · subst hname
        simp [lastMetricNamed, hlast, lookupEntry_upsertEntry_self]
      · simp [lastMetricNamed, hlast, hname, lookupEntry_upsertEntry_ne base m.name k m hname]

theorem registerMetrics_error_of_invalid (l : List Metric)
    (hinv : ∃ m ∈ l, m.name = none ∨ m.datatype = DataType.unknown) :
    ∀ nm dm, Birth.registerMetrics l nm dm = Except.error SpbError.validationError := by
  induction l with
  | nil => simp at hinv
  | cons m rest ih =>
    intro nm dm
    obtain ⟨m1, hmem, hbad⟩ := hinv
    rcases List.mem_cons.mp hmem with heq | hrest
    · subst heq
      cases hname : m1.name with
      | none => simp [Birth.registerMetrics, hname]
      | some s =>
        rcases hbad with hbad | hbad
        · rw [hname] at hbad; exact absurd hbad (by simp)
        · simp [Birth.registerMetrics, hname, hbad]
    · cases hname : m.name with
      | none => simp [Birth.registerMetrics, hname]
      | some s =>
        by_cases hdt : m.datatype = DataType.unknown
        · simp [Birth.registerMetrics, hname, hdt]
        · simp only [Birth.registerMetrics, hname, hdt, if_false]
          exact ih ⟨m1, hrest, hbad⟩ _ _

theorem registerMetrics_isOk_of_valid (l : List Metric)
    (hval : ∀ m ∈ l, m.name ≠ none ∧ m.datatype ≠ DataType.unknown) :
    ∀ nm dm, (Birth.registerMetrics l nm dm).isOk = true := by
  induction l with
  | nil => intro nm dm; rfl
  | cons m rest ih =>
    intro nm dm
    obtain ⟨hname, hdt⟩ := hval m (List.mem_cons_self m rest)
    cases hn : m.name with
    | none => exact absurd hn hname
    | some s =>
      simp only [Birth.registerMetrics, hn, hdt, if_false]
      exact ih (fun m1 h1 => hval m1 (List.mem_cons_of_mem m h1)) _ _

theorem construct_ok_of_valid (ts s : Nat) (metrics : List Metric)
    (hval : ∀ m ∈ metrics, m.name ≠ none ∧ m.datatype ≠ DataType.unknown) :
    ∃ b, Birth.construct ts s metrics = Except.ok b := by
  have h := registerMetrics_isOk_of_valid metrics hval [] []
  cases hreg : Birth.registerMetrics metrics [] [] with
  | error e => rw [hreg] at h; exact Bool.noConfusion h
  | ok r =>
    obtain ⟨nm, dm⟩ := r
    exact ⟨⟨ts, s, metrics, nm, dm⟩, by simp [Birth.construct, hreg]⟩

/-! ### Claim theorems -/

/-- C1: the round-trip law `decode(encode(x)) == x` fails on the code.
For the node-death payload `x` with populated timestamp `123`, encoding
under the binary codec and decoding the result back yields the payload
with timestamp `None` instead of `123` (the presence check in
`NDeath.decode` is inverted), so `decode(encode(x)) ≠ x` although every
field of `x` is populated. -/
theorem ndeath_roundtrip_fails_at_populated_timestamp :
    (match NDeath.encodePB { timestamp := some 123, bd_seq_metric := some bdSeqMetric } false with
     | Except.ok pb => NDeath.decodePB pb none
     | Except.error e => Except.error e)
      = Except.ok { timestamp := none, bd_seq_metric := some bdSeqMetric }
    ∧ ({ timestamp := none, bd_seq_metric := some bdSeqMetric } : NDeath)
        ≠ { timestamp := some 123, bd_seq_metric := some bdSeqMetric } := by
  decide

/-- C7: `NDeath.decode` does NOT tolerate-and-preserve the timestamp as
claimed: a wire record whose timestamp field is present (here `123`)
decodes to timestamp `None`, and a record whose timestamp field is absent
decodes to timestamp `0` (the proto default), not `None` — the presence
check is inverted. -/
theorem ndeath_decode_timestamp_inverted :
    NDeath.decodePB { timestamp := some 123, metrics := [bdSeqMetric.to_pb true] } none
      = Except.ok { timestamp := none, bd_seq_metric := some bdSeqMetric }
    ∧ NDeath.decodePB { timestamp := none, metrics := [bdSeqMetric.to_pb true] } none
      = Except.ok { timestamp := some 0, bd_seq_metric := some bdSeqMetric } := by
  decide

/-- C3 counterexample: a metric with the EMPTY-STRING name `""` (and a
defined datatype) is accepted by the birth constructor — `__post_init__`
only rejects a name that is `None` — so constructing a birth from a
metric list containing a metric whose name is empty does not raise. -/
theorem birth_accepts_empty_string_name :
    Birth.construct 0 0 [{ name := some "", datatype := DataType.int32,
                           value := MValue.intVal 1 }]
      = Except.ok { timestamp := 0, seq := 0,
                    metrics := [{ name := some "", datatype := DataType.int32,
                                  value := MValue.intVal 1 }],
                    names_mapping := [],
                    dtypes_mapping := [("", DataType.int32)] } := by
  decide

/-- C3 (amended): constructing a birth raises `ValidationError` when some
metric's name is absent (`None`) or some metric's datatype is `UNKNOWN`;
it succeeds when every metric has a defined (possibly empty-string) name
and a non-`UNKNOWN` datatype. -/
theorem birth_validation (ts s : Nat) (metrics : List Metric) :
    ((∃ m ∈ metrics, m.name = none ∨ m.datatype = DataType.unknown) →
      Birth.construct ts s metrics = Except.error SpbError.validationError)
    ∧ ((∀ m ∈ metrics, m.name ≠ none ∧ m.datatype ≠ DataType.unknown) →
      (Birth.construct ts s metrics).isOk = true) := by
  constructor
  · intro hinv
    have h := registerMetrics_error_of_invalid metrics hinv [] []
    simp [Birth.construct, h]
  · intro hval
    obtain ⟨b, hb⟩ := construct_ok_of_valid ts s metrics hval
    simp [hb, Except.isOk, Except.toBool]

/-- Witness for `birth_validation`: a metric with `None` name makes the
constructor raise; a metric with a defined name and datatype is
accepted. -/
theorem birth_validation_witness :
    Birth.construct 1 0 [{ name := none, datatype := DataType.int32,
                           value := MValue.null }]
      = Except.error SpbError.validationError
    ∧ (Birth.construct 1 0 [{ name := some "t", datatype := DataType.int32,
                              value := MValue.null }]).isOk = true :=
  ⟨(birth_validation 1 0 _).1 (by decide),
   (birth_validation 1 0 _).2 (by decide)⟩

/-- C2: alias/datatype resolution when decoding data/command payloads
against a birth. (i) Per wire metric: a metric lacking a name takes the
name the birth's alias/name map gives its alias, and a metric with
`UNKNOWN` datatype takes the datatype the birth's name/datatype map gives
its (possibly just-resolved) name. (ii)/(iii) A data (resp. command)
payload whose metrics all resolve decodes to exactly those resolved
metrics. (iv) The same per-metric resolution on the JSON decode path. -/
theorem data_decode_resolves_alias_and_dtype :
    (∀ (b : Birth) (m : PBMetric) (nm : String) (dt : DataType),
      (m.name = "" → b.get_name m.«alias» = some nm) →
      (m.name ≠ "" → nm = m.name) →
      (m.datatype = DataType.unknown → b.get_dtype nm = some dt) →
      (m.datatype ≠ DataType.unknown → dt = m.datatype) →
      resolveMetric b m = Except.ok { m with name := nm, datatype := dt })
    ∧ (∀ (b : Birth) (p : PBPayload) (s : Nat) (ms : List PBMetric),
      p.seq = some s →
      resolveMetrics (some b) p.metrics = Except.ok ms →
      NData.decodePB p (some b)
        = Except.ok ⟨p.timestamp.getD 0, s, ms.map Metric.from_pb⟩)
    ∧ (∀ (b : Birth) (p : PBPayload) (ms : List PBMetric),
      p.seq = none →
      resolveMetrics (some b) p.metrics = Except.ok ms →
      NCmd.decodePB p (some b)
        = Except.ok ⟨p.timestamp.getD 0, ms.map Metric.from_pb⟩)
    ∧ (∀ (b : Birth) (m : Metric) (a : Nat) (nm : String) (dt : DataType),
      (nameFalsy m.name = true → m.«alias» = some a ∧ b.get_name a = some nm) →
      (nameFalsy m.name = false → m.name = some nm) →
      (m.datatype = DataType.unknown → b.get_dtype nm = some dt) →
      (m.datatype ≠ DataType.unknown → dt = m.datatype) →
      resolveJsonMetric b m = Except.ok { m with name := some nm, datatype := dt}) := by
  refine ⟨?_, ?_, ?_, ?_⟩
  · intro b m nm dt h1 h2 h3 h4
    by_cases hn : m.name = ""
    · by_cases hd : m.datatype = DataType.unknown
      · simp [resolveMetric, resolveName, hn, h1 hn, resolveDtype, hd, h3 hd]
      · rw [h4 hd]
        simp [resolveMetric, resolveName, hn, h1 hn, resolveDtype, hd]
    · have hnm := h2 hn
      by_cases hd : m.datatype = DataType.unknown
      · have hdt := h3 hd
        rw [hnm] at hdt
        rw [hnm]
        simp [resolveMetric, resolveName, hn, resolveDtype, hd, hdt]
      · rw [h4 hd, hnm]
        simp [resolveMetric, resolveName, hn, resolveDtype, hd]
  · intro b p s ms hseq hres
    simp [NData.decodePB, decodeProtobufCore, hres, hseq]
  · intro b p ms hseq hres
    simp [NCmd.decodePB, decodeProtobufCore, hres, hseq]
  · intro b m a nm dt h1 h2 h3 h4
    obtain ⟨mn, ma, mt, md, mv⟩ := m
    cases hf : nameFalsy mn with
    | true =>
      obtain ⟨ha, hga⟩ := h1 hf
      simp only at ha
      subst ha
      by_cases hd : md = DataType.unknown
      · subst hd
        simp [resolveJsonMetric, hf, hga, h3 rfl]
      · rw [h4 hd]
        simp [resolveJsonMetric, hf, hga, hd]
    | false =>
      have hnm := h2 hf
      simp only at hnm
      subst hnm
      by_cases hd : md = DataType.unknown
      · subst hd
        cases ma with
        | some a1 => simp [resolveJsonMetric, nameFalsy] at hf ⊢; simp [hf, h3 rfl]
        | none => simp [resolveJsonMetric, h3 rfl]
      · rw [h4 hd]
        cases ma with
        | some a1 => simp [resolveJsonMetric, nameFalsy] at hf ⊢; simp [hf, hd]
        | none => simp [resolveJsonMetric, hd]

/-- Witness for `data_decode_resolves_alias_and_dtype`: decoding the data
payload `{alias: 1, value: 5}` (no name, no datatype) against the birth
containing `{name: "a", alias: 1, datatype: INT32}` yields the metric
`{name: "a", alias: 1, datatype: INT32, value: 5}`. -/
theorem data_decode_resolution_example :
    NData.decodePB dataPB0 (some birth0)
      = Except.ok ⟨10, 0, [{ name := some "a", «alias» := some 1, timestamp := none,
                             datatype := DataType.int32, value := MValue.intVal 5 }]⟩ := by
  have h := data_decode_resolves_alias_and_dtype.2.1 birth0 dataPB0 0
    [{ name := "a", «alias» := 1, timestamp := 0, datatype := DataType.int32,
       value := MValue.intVal 5 }]
    (by decide) (by decide)
  exact h

/-- The only exception the per-metric resolution loop can raise is the
lookup failure (`KeyError`, modelled `resolutionError`). -/
theorem resolveMetric_error_eq (b : Birth) (m : PBMetric) (e : SpbError)
    (h : resolveMetric b m = Except.error e) : e = SpbError.resolutionError := by
  unfold resolveMetric at h
  cases hr : resolveName b m with
  | error e1 =>
    rw [hr] at h
    cases h
    unfold resolveName at hr
    by_cases hn : m.name = ""
    · rw [if_pos hn] at hr
      cases hga : b.get_name m.«alias» with
      | none => rw [hga] at hr; cases hr; rfl
      | some nm => rw [hga] at hr; cases hr
    · rw [if_neg hn] at hr; cases hr
  | ok m1 =>
    rw [hr] at h
    unfold resolveDtype at h
    dsimp only at h
    by_cases hd : m1.datatype = DataType.unknown
    · rw [if_pos hd] at h
      cases hgd : b.get_dtype m1.name with
      | none => rw [hgd] at h; cases h; rfl
      | some dt => rw [hgd] at h; cases h
    · rw [if_neg hd] at h; cases h

/-- A single unresolvable metric makes the whole resolution loop raise
`resolutionError`. -/
theorem resolveMetrics_error_of_mem (b : Birth) (ms : List PBMetric) (m : PBMetric)
    (hmem : m ∈ ms)
    (herr : resolveMetric b m = Except.error SpbError.resolutionError) :
    resolveMetrics (some b) ms = Except.error SpbError.resolutionError := by
  induction ms with
  | nil => simp at hmem
  | cons m0 rest ih =>
    rcases List.mem_cons.mp hmem with heq | hrest
    · subst heq
      simp [resolveMetrics, herr]
    · cases hr0 : resolveMetric b m0 with
      | error e =>
        have he := resolveMetric_error_eq b m0 e hr0
        subst he
        simp [resolveMetrics, hr0]
      | ok m1 =>
        simp [resolveMetrics, hr0, ih hrest]

/-- A metric matching one of the claim's failure conditions makes the
per-metric resolution raise. -/
theorem resolveMetric_fails (b : Birth) (m : PBMetric)
    (hcond : (m.name = "" ∧ b.get_name m.«alias» = none)
      ∨ (∃ nm, m.name = "" ∧ b.get_name m.«alias» = some nm
           ∧ m.datatype = DataType.unknown ∧ b.get_dtype nm = none)
      ∨ (m.name ≠ "" ∧ m.datatype = DataType.unknown ∧ b.get_dtype m.name = none)) :
    resolveMetric b m = Except.error SpbError.resolutionError := by
  rcases hcond with ⟨hn, hga⟩ | ⟨nm, hn, hga, hd, hgd⟩ | ⟨hn, hd, hgd⟩
  · simp [resolveMetric, resolveName, hn, hga]
  · simp [resolveMetric, resolveName, hn, hga, resolveDtype, hd, hgd]
  · simp [resolveMetric, resolveName, hn, resolveDtype, hd, hgd]

/-- C4: decoding a data or command payload against a birth raises
`ResolutionError` — propagated to the caller, nothing defaulted — whenever
some metric carries an alias absent from the birth's alias/name map (while
lacking a name), or an `UNKNOWN` datatype together with a (resolved) name
absent from the birth's name/datatype map. -/
theorem decode_unresolved_reference_raises (b : Birth) (p : PBPayload) (m : PBMetric)
    (hmem : m ∈ p.metrics)
    (hcond : (m.name = "" ∧ b.get_name m.«alias» = none)
      ∨ (∃ nm, m.name = "" ∧ b.get_name m.«alias» = some nm
           ∧ m.datatype = DataType.unknown ∧ b.get_dtype nm = none)
      ∨ (m.name ≠ "" ∧ m.datatype = DataType.unknown ∧ b.get_dtype m.name = none)) :
    NData.decodePB p (some b) = Except.error SpbError.resolutionError
    ∧ NCmd.decodePB p (some b) = Except.error SpbError.resolutionError := by
  have herr := resolveMetric_fails b m hcond
  have hms := resolveMetrics_error_of_mem b p.metrics m hmem herr
  exact ⟨by simp [NData.decodePB, decodeProtobufCore, hms],
         by simp [NCmd.decodePB, decodeProtobufCore, hms]⟩

/-- Witness for `decode_unresolved_reference_raises`: decoding a data
payload referencing alias 99 against a birth lacking that alias raises
`ResolutionError`. -/
theorem decode_unresolved_reference_raises_witness :
    NData.decodePB dataPB99 (some birth0) = Except.error SpbError.resolutionError :=
  (decode_unresolved_reference_raises birth0 dataPB99
    { name := "", «alias» := 99, datatype := DataType.unknown, value := MValue.intVal 5 }
    (by decide) (Or.inl (by decide))).1

/-- C5 counterexample: publishing a metric list containing a metric with
no name to a fresh identity does NOT emit a birth message: the snapshot is
stored, then the `NBirth` constructor raises `ValidationError` and no
message at all reaches the transport — contradicting "stores ... and emits
a birth message". -/
theorem publish_invalid_first_metrics_emits_no_birth :
    (node0.publish topic0 [mBad] QoS.atMostOnce false 5).events = []
    ∧ (node0.publish topic0 [mBad] QoS.atMostOnce false 5).err
        = some SpbError.validationError
    ∧ lookupEntry (node0.publish topic0 [mBad] QoS.atMostOnce false 5).node.published_metrics
        (some "g", some "e") = some [(none, mBad)] := by
  decide

/-- The session state with one identity's snapshot dict replaced
(`self._published_metrics[key] = ...`). -/
def DataOpsNode.withSnapshot (node : DataOpsNode)
    (key : Option String × Option String)
    (snap : List (Option String × Metric)) : DataOpsNode :=
  { node with published_metrics := upsertEntry node.published_metrics key snap }

/-- C5 (amended): a publish to a fresh `(group, node)` identity stores the
given metrics as that identity's snapshot and — provided every metric has
a defined name and datatype, otherwise the birth constructor raises and no
message is emitted — emits exactly one birth message (never a data
message); a publish to a known identity merges the metrics into the
stored snapshot by name (last write wins) and emits exactly one data
message carrying the metrics of this call only. -/
theorem publish_birth_or_data (node : DataOpsNode) (topic : Topic)
    (metrics : List Metric) (qos : QoS) (retain : Bool) (now : Nat) :
    (lookupEntry node.published_metrics (topic.group_id, topic.edge_node_id) = none →
      (∀ m ∈ metrics, m.name ≠ none ∧ m.datatype ≠ DataType.unknown) →
      ∃ b, Birth.construct now 0 metrics = Except.ok b ∧
        node.publish topic metrics qos retain now =
          ⟨node.withSnapshot (topic.group_id, topic.edge_node_id) (snapshotOf metrics []),
           [Event.pub ⟨nbirthTopic topic.group_id topic.edge_node_id,
                       PayloadVal.nbirthP b, QoS.atMostOnce,
                       node.retain_birth_certificates⟩ true],
           none⟩)
    ∧ (∀ snap,
        lookupEntry node.published_metrics (topic.group_id, topic.edge_node_id) = some snap →
        node.publish topic metrics qos retain now =
          ⟨node.withSnapshot (topic.group_id, topic.edge_node_id) (snapshotOf metrics snap),
           [Event.pub ⟨topic, PayloadVal.ndataP ⟨now, 0, metrics⟩, qos, retain⟩ true],
           none⟩
        ∧ ∀ nm, lookupEntry (snapshotOf metrics snap) nm =
            (match lastMetricNamed metrics nm with
             | some m => some m
             | none => lookupEntry snap nm)) := by
  constructor
  · intro hfresh hval
    obtain ⟨b, hb⟩ := construct_ok_of_valid now 0 metrics hval
    refine ⟨b, hb, ?_⟩
    simp [DataOpsNode.publish, DataOpsNode.withSnapshot, hfresh, mkNBirthMessage, hb]
  · intro snap hknown
    refine ⟨?_, fun nm => lookupEntry_snapshotOf metrics snap nm⟩
    simp [DataOpsNode.publish, DataOpsNode.withSnapshot, hknown]

/-- Witness for `publish_birth_or_data`: a first publish of `m1` to a
fresh identity emits a birth (not data); the following publish of `m2`
emits a data message containing only `m2`, while the stored snapshot now
holds both `m1` and `m2`. -/
theorem publish_birth_or_data_witness :
    (node0.publish topic0 [mM1] QoS.atMostOnce false 5).events =
      [Event.pub ⟨nbirthTopic (some "g") (some "e"),
                  PayloadVal.nbirthP ⟨5, 0, [mM1], [], [("m1", DataType.int32)]⟩,
                  QoS.atMostOnce, false⟩ true]
    ∧ (nodeAfterFirst.publish topic0 [mM2] QoS.atLeastOnce true 6).events =
      [Event.pub ⟨topic0, PayloadVal.ndataP ⟨6, 0, [mM2]⟩, QoS.atLeastOnce, true⟩ true]
    ∧ lookupEntry
        (nodeAfterFirst.publish topic0 [mM2] QoS.atLeastOnce true 6).node.published_metrics
        (some "g", some "e") = some [(some "m1", mM1), (some "m2", mM2)] := by
  obtain ⟨b, hb, heq⟩ :=
    (publish_birth_or_data node0 topic0 [mM1] QoS.atMostOnce false 5).1 (by decide) (by decide)
  have hbl : Except.ok b
      = Except.ok (⟨5, 0, [mM1], [], [("m1", DataType.int32)]⟩ : Birth) :=
    hb.symm.trans (by decide)
  injection hbl with hbv
  subst hbv
  have h2 :=
    (publish_birth_or_data nodeAfterFirst topic0 [mM2] QoS.atLeastOnce true 6).2
      [(some "m1", mM1)] (by decide)
  refine ⟨?_, ?_, ?_⟩
  · rw [heq]; decide
  · rw [h2.1]
  · rw [h2.1]; decide

/-- C9: a birth triggered by a first publish is emitted with
quality-of-service `AT_MOST_ONCE` and retain equal to the session's
`retain_birth_certificates` flag, whatever `qos`/`retain` the caller
passed; the caller's `qos`/`retain` end up only on the data message of a
publish to a known identity. -/
theorem publish_birth_fixed_qos_retain (node : DataOpsNode) (topic : Topic)
    (metrics : List Metric) (qos : QoS) (retain : Bool) (now : Nat) :
    (∀ b, lookupEntry node.published_metrics (topic.group_id, topic.edge_node_id) = none →
      Birth.construct now 0 metrics = Except.ok b →
      (node.publish topic metrics qos retain now).events =
        [Event.pub ⟨nbirthTopic topic.group_id topic.edge_node_id,
                    PayloadVal.nbirthP b, QoS.atMostOnce,
                    node.retain_birth_certificates⟩ true])
    ∧ (∀ snap,
      lookupEntry node.published_metrics (topic.group_id, topic.edge_node_id) = some snap →
      (node.publish topic metrics qos retain now).events =
        [Event.pub ⟨topic, PayloadVal.ndataP ⟨now, 0, metrics⟩, qos, retain⟩ true]) := by
  constructor
  · intro b hfresh hb
    simp [DataOpsNode.publish, hfresh, mkNBirthMessage, hb]
  · intro snap hknown
    simp [DataOpsNode.publish, hknown]

/-- A session constructed with `retain_birth_certificates := true`. -/
def nodeR : DataOpsNode :=
  { node_id := "n", connected := true, retain_birth_certificates := true }

/-- Witness for `publish_birth_fixed_qos_retain`: the caller passes
`EXACTLY_ONCE` and `retain := false`, yet the birth goes out with
`AT_MOST_ONCE` and `retain := true` (the session flag). -/
theorem publish_birth_fixed_qos_retain_witness :
    (nodeR.publish topic0 [mM1] QoS.exactlyOnce false 5).events =
      [Event.pub ⟨nbirthTopic (some "g") (some "e"),
                  PayloadVal.nbirthP ⟨5, 0, [mM1], [], [("m1", DataType.int32)]⟩,
                  QoS.atMostOnce, true⟩ true] := by
  have h := (publish_birth_fixed_qos_retain nodeR topic0 [mM1] QoS.exactlyOnce false 5).1
    ⟨5, 0, [mM1], [], [("m1", DataType.int32)]⟩ (by decide) (by decide)
  exact h

/-- Two death messages are equal exactly when they target the same
identity. -/
theorem ndeathMessage_inj (g1 e1 g2 e2 : Option String) (now : Nat) :
    ndeathMessage g1 e1 now = ndeathMessage g2 e2 now ↔ g1 = g2 ∧ e1 = e2 := by
  simp [ndeathMessage, ndeathTopic, Message.mk.injEq, Topic.mk.injEq]

/-- A key outside a dict's key list looks up to nothing. -/
theorem lookupEntry_eq_none_of_not_mem {α β : Type} [DecidableEq α]
    (l : List (α × β)) (k : α) (h : k ∉ l.map Prod.fst) :
    lookupEntry l k = none := by
  induction l with
  | nil => rfl
  | cons hd tl ih =>
    obtain ⟨k0, v0⟩ := hd
    rw [List.map_cons, List.mem_cons, not_or] at h
    obtain ⟨h1, h2⟩ := h
    have hne : k0 ≠ k := fun he => h1 he.symm
    simp [lookupEntry, hne, ih h2]

/-- With distinct keys, the death trace of `disconnect` contains the death
for a given identity exactly once when the identity is known, never
otherwise. -/
theorem countP_deaths (l : List ((Option String × Option String) × List (Option String × Metric)))
    (g e : Option String) (now : Nat)
    (hnodup : (l.map Prod.fst).Nodup) :
    (l.map (fun kv => Event.pub (ndeathMessage kv.1.1 kv.1.2 now) false)).countP
        (fun ev => decide (ev = Event.pub (ndeathMessage g e now) false))
      = if (lookupEntry l (g, e)).isSome then 1 else 0 := by
  induction l with
  | nil => simp [lookupEntry]
  | cons hd tl ih =>
    obtain ⟨⟨g0, e0⟩, v0⟩ := hd
    rw [List.map_cons] at hnodup
    obtain ⟨hnotmem, htl⟩ := List.nodup_cons.mp hnodup
    rw [List.map_cons, List.countP_cons]
    by_cases hk : (g0, e0) = ((g, e) : Option String × Option String)
    · injection hk with hg he
      subst hg
      subst he
      have hlook : lookupEntry tl (g0, e0) = none :=
        lookupEntry_eq_none_of_not_mem tl (g0, e0) hnotmem
      have hrec := ih htl
      rw [hlook] at hrec
      simp only [Option.isSome_none, Bool.false_eq_true, if_false] at hrec
      rw [hrec]
      simp [lookupEntry]
    · have hpq : Event.pub (ndeathMessage g0 e0 now) false
          ≠ Event.pub (ndeathMessage g e now) false := by
        intro hcon
        injection hcon with hmsg hflag
        obtain ⟨hg, he⟩ := (ndeathMessage_inj g0 e0 g e now).mp hmsg
        exact hk (by rw [hg, he])
      rw [ih htl]
      simp [lookupEntry, hk, hpq]

/-- C6: for a connected session, `disconnect` hands the transport exactly
one death message per known identity — all of them before the client's
disconnect call — and clears the connected flag; for a session that is
already disconnected, no death messages are emitted at all. -/
theorem disconnect_emits_one_death_per_identity (node : DataOpsNode) (now : Nat)
    (hnodup : (node.published_metrics.map Prod.fst).Nodup) :
    (node.disconnect now).1.connected = false
    ∧ (node.connected = true →
        (node.disconnect now).2 =
          node.published_metrics.map
            (fun kv => Event.pub (ndeathMessage kv.1.1 kv.1.2 now) false)
            ++ [Event.clientDisconnect]
        ∧ ∀ g e, ((node.disconnect now).2.countP
              (fun ev => decide (ev = Event.pub (ndeathMessage g e now) false)))
            = if (lookupEntry node.published_metrics (g, e)).isSome then 1 else 0)
    ∧ (node.connected = false → (node.disconnect now).2 = [Event.clientDisconnect]) := by
  refine ⟨rfl, ?_, ?_⟩
  · intro hc
    have hev : (node.disconnect now).2 =
        node.published_metrics.map
          (fun kv => Event.pub (ndeathMessage kv.1.1 kv.1.2 now) false)
          ++ [Event.clientDisconnect] := by
      simp [DataOpsNode.disconnect, hc]
    refine ⟨hev, fun g e => ?_⟩
    rw [hev, List.countP_append, countP_deaths node.published_metrics g e now hnodup]
    simp
  · intro hc
    simp [DataOpsNode.disconnect, hc]

/-- Witness for `disconnect_emits_one_death_per_identity`: a session
knowing two identities emits exactly their two deaths (in stored order)
before the transport disconnect, ends up disconnected, and a second
`disconnect` emits no deaths. -/
theorem disconnect_emits_one_death_per_identity_witness :
    (nodeTwo.disconnect 7).2 =
      [Event.pub (ndeathMessage (some "g1") (some "e1") 7) false,
       Event.pub (ndeathMessage (some "g2") (some "e2") 7) false,
       Event.clientDisconnect]
    ∧ ((nodeTwo.disconnect 7).2.countP
        (fun ev => decide (ev = Event.pub (ndeathMessage (some "g1") (some "e1") 7) false))) = 1
    ∧ (nodeTwo.disconnect 7).1.connected = false
    ∧ (((nodeTwo.disconnect 7).1).disconnect 8).2 = [Event.clientDisconnect] := by
  have h := disconnect_emits_one_death_per_identity nodeTwo 7 (by decide)
  have h2 := disconnect_emits_one_death_per_identity ((nodeTwo.disconnect 7).1) 8 (by decide)
  refine ⟨?_, ?_, h.1, h2.2.2 h.1⟩
  · rw [(h.2.1 rfl).1]; decide
  · rw [(h.2.1 rfl).2 (some "g1") (some "e1")]; decide

/-- C10: every node-death payload the session constructs during
`disconnect` carries `None` as its birth/death-sequence metric, and
encoding any such payload fails (the encoder dereferences the missing
metric's serializer) instead of returning bytes. -/
theorem disconnect_ndeath_payload_unencodable (node : DataOpsNode) (now : Nat) :
    ∀ ev ∈ (node.disconnect now).2, ∀ msg dts, ev = Event.pub msg dts →
      ∀ d, msg.payload = PayloadVal.ndeathP d →
        d.bd_seq_metric = none
        ∧ ∀ inc, NDeath.encodePB d inc = Except.error SpbError.typeError := by
  intro ev hev msg dts hevp d hd
  simp only [DataOpsNode.disconnect] at hev
  rcases List.mem_append.mp hev with hin | hdc
  · by_cases hc : node.connected
    · rw [if_pos hc] at hin
      obtain ⟨kv, hkv, hevq⟩ := List.mem_map.mp hin
      have hcomb := hevq.trans hevp
      injection hcomb with hmsg hflag
      rw [← hmsg] at hd
      have hd2 : PayloadVal.ndeathP ⟨some now, none⟩ = PayloadVal.ndeathP d := hd
      injection hd2 with hdd
      subst hdd
      exact ⟨rfl, fun inc => rfl⟩
    · rw [if_neg hc] at hin
      simp at hin
  · simp only [List.mem_singleton] at hdc
    rw [hevp] at hdc
    exact Event.noConfusion hdc

/-- Witness for `disconnect_ndeath_payload_unencodable`: the death payload
emitted for the first identity of `nodeTwo` has no birth/death-sequence
metric and cannot be encoded. -/
theorem disconnect_ndeath_payload_unencodable_witness :
    NDeath.encodePB { timestamp := some 7, bd_seq_metric := none } true
      = Except.error SpbError.typeError :=
  (disconnect_ndeath_payload_unencodable nodeTwo 7
      (Event.pub (ndeathMessage (some "g1") (some "e1") 7) false) (by decide)
      (ndeathMessage (some "g1") (some "e1") 7) false rfl
      { timestamp := some 7, bd_seq_metric := none } rfl).2 true

/-- C8: the derived topic hierarchy of a delivered message and one of its
metrics is the group id split on `":"`, then the edge-node id (plus the
device id when present) — or else the host id — then the metric name split
on `":"`; a message carrying both an edge-node id and a host id makes the
derivation raise. -/
theorem topic_hierarchy_derivation :
    (∀ (message : Message) (metric : Metric) (g e nm : String),
      message.topic.«namespace» = "spBv1.0" →
      message.topic.group_id = some g →
      message.topic.edge_node_id = some e →
      message.topic.sparkplug_host_id = none →
      metric.name = some nm →
      get_topic_hierarchy_from_spb_parris_encoding message metric =
        Except.ok (pySplit g ':' ++ ([e] ++ message.topic.device_id.toList) ++ pySplit nm ':'))
    ∧ (∀ (message : Message) (metric : Metric) (g hst nm : String),
      message.topic.«namespace» = "spBv1.0" →
      message.topic.group_id = some g →
      message.topic.edge_node_id = none →
      message.topic.sparkplug_host_id = some hst →
      metric.name = some nm →
      get_topic_hierarchy_from_spb_parris_encoding message metric =
        Except.ok (pySplit g ':' ++ [hst] ++ pySplit nm ':'))
    ∧ (∀ (message : Message) (metric : Metric) (g e hst : String),
      message.topic.«namespace» = "spBv1.0" →
      message.topic.group_id = some g →
      message.topic.edge_node_id = some e →
      message.topic.sparkplug_host_id = some hst →
      get_topic_hierarchy_from_spb_parris_encoding message metric =
        Except.error SpbError.validationError) := by
  refine ⟨?_, ?_, ?_⟩
  · intro message metric g e nm hns hg he hh hnm
    cases hdev : message.topic.device_id with
    | some d =>
      simp [get_topic_hierarchy_from_spb_parris_encoding, hns, hg, he, hh, hnm, hdev]
    | none =>
      simp [get_topic_hierarchy_from_spb_parris_encoding, hns, hg, he, hh, hnm, hdev]
  · intro message metric g hst nm hns hg he hh hnm
    simp [get_topic_hierarchy_from_spb_parris_encoding, hns, hg, he, hh, hnm]
  · intro message metric g e hst hns hg he hh
    simp [get_topic_hierarchy_from_spb_parris_encoding, hns, hg, he, hh]

/-- Message of the worked hierarchy example: group `"Plant:Area"`, node
`"Line1"`. -/
def msgPlant : Message :=
  { topic := { message_type := MessageType.ndata, group_id := some "Plant:Area",
               edge_node_id := some "Line1" },
    payload := PayloadVal.ndataP ⟨0, 0, []⟩, qos := QoS.atMostOnce, retain := false }

/-- A message (invalidly) carrying both an edge-node id and a host id. -/
def msgBoth : Message :=
  { topic := { message_type := MessageType.ndata, group_id := some "Plant:Area",
               edge_node_id := some "Line1", sparkplug_host_id := some "host1" },
    payload := PayloadVal.ndataP ⟨0, 0, []⟩, qos := QoS.atMostOnce, retain := false }

/-- Witness for `topic_hierarchy_derivation`: group `"Plant:Area"`, node
`"Line1"`, metric `"Temp:Sensor1"` derive
`["Plant", "Area", "Line1", "Temp", "Sensor1"]`, and a message carrying
both a node and a host identity raises. -/
theorem topic_hierarchy_derivation_witness :
    get_topic_hierarchy_from_spb_parris_encoding msgPlant { name := some "Temp:Sensor1" }
      = Except.ok ["Plant", "Area", "Line1", "Temp", "Sensor1"]
    ∧ get_topic_hierarchy_from_spb_parris_encoding msgBoth { name := some "x" }
      = Except.error SpbError.validationError := by
  constructor
  · have h := topic_hierarchy_derivation.1 msgPlant { name := some "Temp:Sensor1" }
      "Plant:Area" "Line1" "Temp:Sensor1" rfl rfl rfl rfl rfl
    rw [h]; decide
  · exact topic_hierarchy_derivation.2.2 msgBoth { name := some "x" }
      "Plant:Area" "Line1" "host1" rfl rfl rfl rfl

end Pysparkplug
